import Mathlib

/-!
Verification of the Manta50 ESC panel (`src/dronecan_gui_tool/panels/manta50_esc.py`).

This file gives a shallow embedding of the panel's parameter-synchronization
core: the enum log decoder `replace_enum_values`, the parameter catalog
`param_index`, the fetch state machine (`send_param_requests`,
`send_next_request`), the response correlation/decoding handler
`handle_debug_log_message`, the reflection step `update_ui_from_params`, and
the set-parameter actions (`send_value`, `on_baudrate_set`, `on_checkbox_set`).

Modelling conventions:
* Python `int` is Lean `Int`; Python dicts (insertion ordered) are association
  lists; Qt widget state is carried in an explicit `PanelState` record.
* Python `float(text)` is modelled by exact decimal parsing into an
  (unreduced) numerator/denominator pair, with overflow to infinity modelled
  as a parse failure (the only consumer then applies `int(...)`, which raises
  on infinity).  IEEE-754 rounding of the parsed value is not modelled.
* An uncaught Python exception is modelled as a `crash` outcome carrying the
  state at the raise point (side effects performed before the raise persist).
* Regex matching for the fixed pattern
  `(UserErrorCode:|CtrlState:|EstState:)\s*(\d+)` is implemented directly as
  a left-to-right scanner with the same leftmost, non-overlapping semantics;
  the character classes are modelled over ASCII.
-/

namespace Manta50

/-- Severity level `INFO` (the module-level constant `INFO = 1`). -/
def INFO : Int := 1

/-- Names of the `CTRL_State` Python enum, indexed by numeric value. -/
def ctrlStateName : Nat → Option String
  | 0 => some "CTRL_State_Error"
  | 1 => some "CTRL_State_Idle"
  | 2 => some "CTRL_State_OffLine"
  | 3 => some "CTRL_State_OnLine"
  | 4 => some "CTRL_numStates"
  | _ => none

/-- Names of the `EST_State` Python enum, indexed by numeric value. -/
def estStateName : Nat → Option String
  | 0 => some "EST_State_Error"
  | 1 => some "EST_State_Idle"
  | 2 => some "EST_State_RoverL"
  | 3 => some "EST_State_Rs"
  | 4 => some "EST_State_RampUp"
  | 5 => some "EST_State_IdRated"
  | 6 => some "EST_State_RatedFlux_OL"
  | 7 => some "EST_State_RatedFlux"
  | 8 => some "EST_State_RampDown"
  | 9 => some "EST_State_LockRotor"
  | 10 => some "EST_State_Ls"
  | 11 => some "EST_State_Rr"
  | 12 => some "EST_State_MotorIdentified"
  | 13 => some "EST_State_OnLine"
  | 14 => some "EST_numStates"
  | _ => none

/-- Names of the `USER_ErrorCode` Python enum, indexed by numeric value. -/
def userErrorCodeName : Nat → Option String
  | 0 => some "USER_ErrorCode_NoError"
  | 1 => some "USER_ErrorCode_iqFullScaleCurrent_A_High"
  | 2 => some "USER_ErrorCode_iqFullScaleCurrent_A_Low"
  | 3 => some "USER_ErrorCode_iqFullScaleVoltage_V_High"
  | 4 => some "USER_ErrorCode_iqFullScaleVoltage_V_Low"
  | 5 => some "USER_ErrorCode_iqFullScaleFreq_Hz_High"
  | 6 => some "USER_ErrorCode_iqFullScaleFreq_Hz_Low"
  | 7 => some "USER_ErrorCode_numPwmTicksPerIsrTick_High"
  | 8 => some "USER_ErrorCode_numPwmTicksPerIsrTick_Low"
  | 9 => some "USER_ErrorCode_numIsrTicksPerCtrlTick_High"
  | 10 => some "USER_ErrorCode_numIsrTicksPerCtrlTick_Low"
  | 11 => some "USER_ErrorCode_numCtrlTicksPerCurrentTick_High"
  | 12 => some "USER_ErrorCode_numCtrlTicksPerCurrentTick_Low"
  | 13 => some "USER_ErrorCode_numCtrlTicksPerEstTick_High"
  | 14 => some "USER_ErrorCode_numCtrlTicksPerEstTick_Low"
  | 15 => some "USER_ErrorCode_numCtrlTicksPerSpeedTick_High"
  | 16 => some "USER_ErrorCode_numCtrlTicksPerSpeedTick_Low"
  | 17 => some "USER_ErrorCode_numCtrlTicksPerTrajTick_High"
  | 18 => some "USER_ErrorCode_numCtrlTicksPerTrajTick_Low"
  | 19 => some "USER_ErrorCode_numCurrentSensors_High"
  | 20 => some "USER_ErrorCode_numCurrentSensors_Low"
  | 21 => some "USER_ErrorCode_numVoltageSensors_High"
  | 22 => some "USER_ErrorCode_numVoltageSensors_Low"
  | 23 => some "USER_ErrorCode_offsetPole_rps_High"
  | 24 => some "USER_ErrorCode_offsetPole_rps_Low"
  | 25 => some "USER_ErrorCode_fluxPole_rps_High"
  | 26 => some "USER_ErrorCode_fluxPole_rps_Low"
  | 27 => some "USER_ErrorCode_zeroSpeedLimit_High"
  | 28 => some "USER_ErrorCode_zeroSpeedLimit_Low"
  | 29 => some "USER_ErrorCode_forceAngleFreq_Hz_High"
  | 30 => some "USER_ErrorCode_forceAngleFreq_Hz_Low"
  | 31 => some "USER_ErrorCode_maxAccel_Hzps_High"
  | 32 => some "USER_ErrorCode_maxAccel_Hzps_Low"
  | 33 => some "USER_ErrorCode_maxAccel_est_Hzps_High"
  | 34 => some "USER_ErrorCode_maxAccel_est_Hzps_Low"
  | 35 => some "USER_ErrorCode_directionPole_rps_High"
  | 36 => some "USER_ErrorCode_directionPole_rps_Low"
  | 37 => some "USER_ErrorCode_speedPole_rps_High"
  | 38 => some "USER_ErrorCode_speedPole_rps_Low"
  | 39 => some "USER_ErrorCode_dcBusPole_rps_High"
  | 40 => some "USER_ErrorCode_dcBusPole_rps_Low"
  | 41 => some "USER_ErrorCode_fluxFraction_High"
  | 42 => some "USER_ErrorCode_fluxFraction_Low"
  | 43 => some "USER_ErrorCode_indEst_speedMaxFraction_High"
  | 44 => some "USER_ErrorCode_indEst_speedMaxFraction_Low"
  | 45 => some "USER_ErrorCode_powerWarpGain_High"
  | 46 => some "USER_ErrorCode_powerWarpGain_Low"
  | 47 => some "USER_ErrorCode_systemFreq_MHz_High"
  | 48 => some "USER_ErrorCode_systemFreq_MHz_Low"
  | 49 => some "USER_ErrorCode_pwmFreq_kHz_High"
  | 50 => some "USER_ErrorCode_pwmFreq_kHz_Low"
  | 51 => some "USER_ErrorCode_voltage_sf_High"
  | 52 => some "USER_ErrorCode_voltage_sf_Low"
  | 53 => some "USER_ErrorCode_current_sf_High"
  | 54 => some "USER_ErrorCode_current_sf_Low"
  | 55 => some "USER_ErrorCode_voltageFilterPole_Hz_High"
  | 56 => some "USER_ErrorCode_voltageFilterPole_Hz_Low"
  | 57 => some "USER_ErrorCode_maxVsMag_pu_High"
  | 58 => some "USER_ErrorCode_maxVsMag_pu_Low"
  | 59 => some "USER_ErrorCode_estKappa_High"
  | 60 => some "USER_ErrorCode_estKappa_Low"
  | 61 => some "USER_ErrorCode_motor_type_Unknown"
  | 62 => some "USER_ErrorCode_motor_numPolePairs_High"
  | 63 => some "USER_ErrorCode_motor_numPolePairs_Low"
  | 64 => some "USER_ErrorCode_motor_ratedFlux_High"
  | 65 => some "USER_ErrorCode_motor_ratedFlux_Low"
  | 66 => some "USER_ErrorCode_motor_Rr_High"
  | 67 => some "USER_ErrorCode_motor_Rr_Low"
  | 68 => some "USER_ErrorCode_motor_Rs_High"
  | 69 => some "USER_ErrorCode_motor_Rs_Low"
  | 70 => some "USER_ErrorCode_motor_Ls_d_High"
  | 71 => some "USER_ErrorCode_motor_Ls_d_Low"
  | 72 => some "USER_ErrorCode_motor_Ls_q_High"
  | 73 => some "USER_ErrorCode_motor_Ls_q_Low"
  | 74 => some "USER_ErrorCode_maxCurrent_High"
  | 75 => some "USER_ErrorCode_maxCurrent_Low"
  | 76 => some "USER_ErrorCode_maxCurrent_resEst_High"
  | 77 => some "USER_ErrorCode_maxCurrent_resEst_Low"
  | 78 => some "USER_ErrorCode_maxCurrent_indEst_High"
  | 79 => some "USER_ErrorCode_maxCurrent_indEst_Low"
  | 80 => some "USER_ErrorCode_maxCurrentSlope_High"
  | 81 => some "USER_ErrorCode_maxCurrentSlope_Low"
  | 82 => some "USER_ErrorCode_maxCurrentSlope_powerWarp_High"
  | 83 => some "USER_ErrorCode_maxCurrentSlope_powerWarp_Low"
  | 84 => some "USER_ErrorCode_IdRated_High"
  | 85 => some "USER_ErrorCode_IdRated_Low"
  | 86 => some "USER_ErrorCode_IdRatedFraction_indEst_High"
  | 87 => some "USER_ErrorCode_IdRatedFraction_indEst_Low"
  | 88 => some "USER_ErrorCode_IdRatedFraction_ratedFlux_High"
  | 89 => some "USER_ErrorCode_IdRatedFraction_ratedFlux_Low"
  | 90 => some "USER_ErrorCode_IdRated_delta_High"
  | 91 => some "USER_ErrorCode_IdRated_delta_Low"
  | 92 => some "USER_ErrorCode_fluxEstFreq_Hz_High"
  | 93 => some "USER_ErrorCode_fluxEstFreq_Hz_Low"
  | 94 => some "USER_ErrorCode_ctrlFreq_Hz_High"
  | 95 => some "USER_ErrorCode_ctrlFreq_Hz_Low"
  | 96 => some "USER_ErrorCode_estFreq_Hz_High"
  | 97 => some "USER_ErrorCode_estFreq_Hz_Low"
  | 98 => some "USER_ErrorCode_RoverL_estFreq_Hz_High"
  | 99 => some "USER_ErrorCode_RoverL_estFreq_Hz_Low"
  | 100 => some "USER_ErrorCode_trajFreq_Hz_High"
  | 101 => some "USER_ErrorCode_trajFreq_Hz_Low"
  | 102 => some "USER_ErrorCode_ctrlPeriod_sec_High"
  | 103 => some "USER_ErrorCode_ctrlPeriod_sec_Low"
  | 104 => some "USER_ErrorCode_maxNegativeIdCurrent_a_High"
  | 105 => some "USER_ErrorCode_maxNegativeIdCurrent_a_Low"
  | 106 => some "USER_numErrorCodes"
  | _ => none

/-- ASCII whitespace as matched by the regex class in the scanner patterns. -/
def isReSpace (c : Char) : Bool :=
  c = ' ' || c = '\t' || c = '\n' || c = '\r' || c = '\x0b' || c = '\x0c'

/-- Numeric value of a list of ASCII digits (Python `int(number_str)`). -/
def digitsToNat (ds : List Char) : Nat :=
  ds.foldl (fun acc c => 10 * acc + (c.toNat - 48)) 0

/-- Match a literal marker at the head of `cs`; on success return the rest. -/
def dropMarker : List Char → List Char → Option (List Char)
  | [], cs => some cs
  | _ :: _, [] => none
  | m :: ms, c :: cs => if c = m then dropMarker ms cs else none

/-- The marker strings of the pattern
`(UserErrorCode:|CtrlState:|EstState:)\s*(\d+)`. -/
def userMarker : List Char := "UserErrorCode:".data

/-- Marker for controller-state codes. -/
def ctrlMarker : List Char := "CtrlState:".data

/-- Marker for estimator-state codes. -/
def estMarker : List Char := "EstState:".data

/-- Try to match `marker` + `\s*` + `\d+` at the head of `cs`.  On success
return the matched text (regex group 0), the replacement produced by
`replace_match` (marker, one space, enum name - or the matched text itself
when the numeric code is not in `table`), and the unconsumed rest. -/
def markerTry (marker : List Char) (table : Nat → Option String) (cs : List Char) :
    Option (List Char × String × List Char) :=
  match dropMarker marker cs with
  | none => none
  | some r1 =>
    let ws := r1.takeWhile isReSpace
    let r2 := r1.dropWhile isReSpace
    let ds := r2.takeWhile Char.isDigit
    if ds.isEmpty then none
    else
      let r3 := r2.drop ds.length
      let matched := marker ++ ws ++ ds
      let rep :=
        match table (digitsToNat ds) with
        | some nm => String.mk marker ++ " " ++ nm
        | none => String.mk matched
      some (matched, rep, r3)

/-- Try the three alternatives of the pattern at the head of `cs` (the marker
prefixes are pairwise incompatible, so at most one can match). -/
def tryMatch (cs : List Char) : Option (List Char × String × List Char) :=
  (markerTry userMarker userErrorCodeName cs).orElse fun _ =>
    (markerTry ctrlMarker ctrlStateName cs).orElse fun _ =>
      markerTry estMarker estStateName cs

/-- Left-to-right scan implementing `re.sub(pattern, replace_match, message)`:
at each position either replace a leftmost match and continue after it, or
copy one character.  `fuel` bounds the number of scan steps; every step
consumes at least one input character, so `fuel = length` is enough. -/
def subScan : Nat → List Char → List Char
  | _, [] => []
  | 0, cs => cs
  | fuel + 1, c :: cs =>
    match tryMatch (c :: cs) with
    | some (_, rep, rest) => rep.data ++ subScan fuel rest
    | none => c :: subScan fuel cs

/-- The source function `replace_enum_values`: rewrite every
`Marker: digits` occurrence whose code is in the corresponding enum table. -/
def replace_enum_values (message : String) : String :=
  String.mk (subScan message.data.length message.data)

/-- First match of `marker` + `\s*` + `\d+` anywhere in `cs`
(`re.search`), returning the matched text. -/
def searchScan (marker : List Char) (table : Nat → Option String) :
    Nat → List Char → Option String
  | _, [] => none
  | 0, _ => none
  | fuel + 1, c :: cs =>
    match markerTry marker table (c :: cs) with
    | some (matched, _, _) => some (String.mk matched)
    | none => searchScan marker table fuel cs

/-- `re.search(r"(UserErrorCode:)\s*(\d+)", text)`, as group 0. -/
def searchUser (text : String) : Option String :=
  searchScan userMarker userErrorCodeName text.data.length text.data

/-- `re.search(r"(CtrlState:)\s*(\d+)", text)`, as group 0. -/
def searchCtrl (text : String) : Option String :=
  searchScan ctrlMarker ctrlStateName text.data.length text.data

/-- `re.search(r"(EstState:)\s*(\d+)", text)`, as group 0. -/
def searchEst (text : String) : Option String :=
  searchScan estMarker estStateName text.data.length text.data

/-- No position of `cs` starts a match of the scanner pattern. -/
def matchFreeB : List Char → Bool
  | [] => true
  | c :: cs => (tryMatch (c :: cs)).isNone && matchFreeB cs

/-! ### Python numeric-string conversions -/

/-- Check Python's lexical rule for underscores in numeric strings: every
underscore must sit between two digits.  `prev` is the previous character. -/
def underscoresOkAux (prev : Char) : List Char → Bool
  | [] => true
  | c :: rest =>
    if c = '_' then
      (prev.isDigit &&
        (match rest with
         | c2 :: _ => c2.isDigit
         | [] => false)) &&
      underscoresOkAux c rest
    else underscoresOkAux c rest

/-- Underscore validity for a whole numeric string. -/
def underscoresOk (cs : List Char) : Bool :=
  underscoresOkAux 'x' cs

/-- Strip leading and trailing whitespace (`str.strip()` on ASCII input). -/
def pyStrip (cs : List Char) : List Char :=
  ((cs.dropWhile isReSpace).reverse.dropWhile isReSpace).reverse

/-- Helper for `pySplitSpace`: split at every space character, keeping empty
pieces, with `acc` the (reversed) pending piece. -/
def splitSpaceAux : List Char → List Char → List String
  | [], acc => [String.mk acc.reverse]
  | c :: rest, acc =>
    if c = ' ' then String.mk acc.reverse :: splitSpaceAux rest []
    else splitSpaceAux rest (c :: acc)

/-- Python `text.split(" ")`: split at every single space character, keeping
empty pieces (so `""` gives `[""]`, `"a  b"` gives `["a", "", "b"]`). -/
def pySplitSpace (text : String) : List String :=
  splitSpaceAux text.data []

/-- Python `" ".join(parts)`. -/
def joinSpace : List String → String
  | [] => ""
  | [x] => x
  | x :: xs => x ++ " " ++ joinSpace xs

/-- Split off an optional sign, returning the sign as `1` or `-1`. -/
def takeSign : List Char → Int × List Char
  | '+' :: rest => (1, rest)
  | '-' :: rest => (-1, rest)
  | cs => (1, cs)

/-- Python `int(text)` on an ASCII string: optional surrounding whitespace,
optional sign, then one or more digits (underscores between digits allowed).
`none` models the `ValueError` raised on any other input. -/
def pyInt (text : String) : Option Int :=
  let cs := pyStrip text.data
  if underscoresOk cs then
    let cs := cs.filter fun c => c ≠ '_'
    let (sgn, cs) := takeSign cs
    let ds := cs.takeWhile Char.isDigit
    let rest := cs.drop ds.length
    if ds.isEmpty || !rest.isEmpty then none
    else some (sgn * digitsToNat ds)
  else none

/-- The IEEE-double overflow threshold `2 ^ 1024`, written out as a literal
so that evaluation never has to raise a power (`pow2_1024_eq` checks it). -/
def pow2_1024 : Nat := 179769313486231590772930519078902473361797697894230657273430081157732675805500963132708477322407536021120113879871393357658789768814416622492847430639474124377767893424865485276302219601246094119453082952085005768838150682342462881473913110540827237163350510684586298239947245938479716304835356329624224137216

theorem pow2_1024_eq : pow2_1024 = 2 ^ 1024 := by norm_num [pow2_1024]

/-- The exact value produced by parsing a decimal string: an unreduced
fraction `num / den` with `den` a positive power of ten.  Stands in for the
CPython `float`; see the module docstring for the rounding caveat. -/
structure PyFloat where
  num : Int
  den : Nat
  deriving Repr, DecidableEq

/-- Truncation toward zero, as in Python `int(x)` applied to a float. -/
def pyTrunc (f : PyFloat) : Int :=
  f.num.tdiv (f.den : Int)

/-- Python `float(text)` on an ASCII string: optional surrounding whitespace,
optional sign, decimal digits with an optional point and optional exponent.
`none` models a `ValueError`, and also covers the cases whose only consumer
(`int(float(text))`) raises anyway: `inf`/`nan` spellings and exponents
overflowing the IEEE double range (`OverflowError` on `int(inf)`). -/
def parsePyFloat (text : String) : Option PyFloat :=
  let cs := pyStrip text.data
  if underscoresOk cs then
    let cs := cs.filter fun c => c ≠ '_'
    let (sgn, cs) := takeSign cs
    let intDs := cs.takeWhile Char.isDigit
    let r1 := cs.drop intDs.length
    let (fracDs, r2) :=
      match r1 with
      | '.' :: r => (r.takeWhile Char.isDigit, r.drop (r.takeWhile Char.isDigit).length)
      | _ => ([], r1)
    if intDs.isEmpty && fracDs.isEmpty then none
    else
      let expPart : Option (Int × List Char) :=
        match r2 with
        | 'e' :: r3 =>
          let (esgn, r4) := takeSign r3
          let eds := r4.takeWhile Char.isDigit
          if eds.isEmpty then none else some (esgn * digitsToNat eds, r4.drop eds.length)
        | 'E' :: r3 =>
          let (esgn, r4) := takeSign r3
          let eds := r4.takeWhile Char.isDigit
          if eds.isEmpty then none else some (esgn * digitsToNat eds, r4.drop eds.length)
        | _ => some (0, r2)
      match expPart with
      | none => none
      | some (expVal, r5) =>
        if !r5.isEmpty then none
        else
          let mant := digitsToNat (intDs ++ fracDs)
          let fracLen := fracDs.length
          if expVal > 2000 then (if mant = 0 then some ⟨0, 1⟩ else none)
          else if expVal < -2000 then some ⟨0, 1⟩
          else
            let num : Int := if 0 ≤ expVal then sgn * mant * (10 : Int) ^ expVal.toNat else sgn * mant
            let den : Nat := if 0 ≤ expVal then 10 ^ fracLen else 10 ^ (fracLen + (-expVal).toNat)
            if pow2_1024 * den ≤ num.natAbs then none else some ⟨num, den⟩
  else none

/-! ### Parameter catalog, bitrate table, message store -/

/-- Registered value kind of a parameter (`int` or `float` in `param_index`). -/
inductive ParamKind where
  | pint
  | pfloat
  deriving Repr, DecidableEq, BEq

/-- The `self.param_index` dictionary: name, index and value kind of each of
the twelve catalog parameters, in source order. -/
def param_index : List (String × Int × ParamKind) :=
  [("Node ID", 0, .pint),
   ("ESC Index", 1, .pint),
   ("Arming", 2, .pint),
   ("Telemetry Rate", 3, .pint),
   ("CAN Speed", 4, .pint),
   ("Max Speed", 5, .pfloat),
   ("Control Word", 6, .pint),
   ("Midle Point", 7, .pint),
   ("Acceleration", 8, .pfloat),
   ("Motor Poles", 9, .pint),
   ("KP", 10, .pfloat),
   ("KI", 11, .pfloat)]

/-- The `self.integer_params_index` comprehension: indices whose kind is
Integer. -/
def integer_params_index : List Int :=
  (param_index.filter fun p => p.2.2 == ParamKind.pint).map fun p => p.2.1

/-- The `self.bmap` dictionary: CAN-bitrate label to numeric code, in source
order. -/
def bmap : List (String × Int) :=
  [("1MHz->12", 12),
   ("500KHz->11", 11),
   ("250KHz->10", 10),
   ("200KHz->9", 9),
   ("125KHz->8", 8),
   ("100KHz->7", 7),
   ("80KHz->6", 6),
   ("50KHz->5", 5)]

/-- Python dict subscript read `bmap[label]` (as an `Option`; a miss would be
a `KeyError`). -/
def bmapLookup (label : String) : Option Int :=
  (bmap.find? fun p => p.1 == label).map fun p => p.2

/-- The reverse lookup in `update_ui_from_params`:
`next((key for key, value in self.bmap.items() if value == v), None)`. -/
def bmapReverse (v : Int) : Option String :=
  (bmap.find? fun p => p.2 == v).map fun p => p.1

/-- The entries of `self.messages`: parameter name mapped to an
(index, decoded value text) pair. -/
abbrev MessageStore := List (String × Int × String)

/-- Python dict assignment `d[k] = v`: update the existing entry in place
(keeping its position) or append a new one. -/
def insertPy (m : MessageStore) (k : String) (v : Int × String) : MessageStore :=
  match m with
  | [] => [(k, v)]
  | (k0, v0) :: rest => if k0 = k then (k, v) :: rest else (k0, v0) :: insertPy rest k v

/-- Python dict lookup `d.get(k)`. -/
def lookupPy (m : MessageStore) (k : String) : Option (Int × String) :=
  (m.find? fun p => p.1 == k).map fun p => p.2

/-! ### Panel state, requests, handler outcomes -/

/-- A scalar transmitted in a parameter write: Python's run-time branch on
`isinstance(value, float)` is reflected by the constructor. -/
inductive PValue where
  | pint (i : Int)
  | preal (num : Int) (den : Nat)
  deriving Repr, DecidableEq

/-- An outbound `uavcan.protocol.param.GetSet` request: parameter index,
optional value (absent for reads), destination node id.  Every request in the
source is submitted with `self.empty_callback` as completion callback. -/
structure Request where
  index : Int
  value : Option PValue
  dest : Int
  deriving Repr, DecidableEq

/-- The completion callback `empty_callback` passed with every request
(its body is `pass`). -/
def empty_callback (event : Unit) : Unit := event

/-- The mutable state of a `Manta50Panel` that the verified operations touch.
Timer identity is modelled by a generation counter: `self.timer = QTimer()`
replaces (and thereby destroys and stops) the previous timer object, which is
modelled as incrementing `timerGen`.  Spin-box display values are not
modelled; the checkboxes, the combo selections backing the verified claims,
the table and the three log displays are. -/
structure PanelState where
  messages : MessageStore
  current_index : Int
  nodeid : Int
  node_select_text : String
  timerGen : Nat
  timerActive : Bool
  tableData : MessageStore
  fetch_label : String
  checkboxes : List Bool
  ctrlDisplay : List String
  estDisplay : List String
  userDisplay : List String
  arming_chk : Bool
  midle_chk : Bool
  baudrate_sel : String
  deriving Repr, DecidableEq

/-- The body of `set_checkboxes_from_byte` as a value: checkbox `i` becomes
`byte & (1 << i) != 0` for the seven control-word checkboxes. -/
def set_checkboxes_from_byte (byte : Int) : List Bool :=
  (List.range 7).map fun i => Int.land byte ((2 : Int) ^ i) ≠ 0

/-- The body of `get_byte_from_checkboxes`: OR together `1 << i` for each
checked checkbox. -/
def get_byte_from_checkboxes (s : PanelState) : Int :=
  s.checkboxes.enum.foldl (fun acc p => if p.2 then Int.lor acc ((2 : Int) ^ p.1) else acc) 0

/-- How the handler run ended: normally, with the uncaught `ValueError` from
`int(float(value))` in the decode step, or with an uncaught exception inside
`update_ui_from_params`.  The carried state is the state at that point
(side effects already performed persist). -/
inductive Outcome where
  | ok (s : PanelState)
  | crashDecode (s : PanelState)
  | crashReflect (s : PanelState)
  deriving Repr, DecidableEq

/-- The state carried by an outcome. -/
def Outcome.state : Outcome → PanelState
  | .ok s => s
  | .crashDecode s => s
  | .crashReflect s => s

/-- Whether the outcome is the decode-step crash. -/
def Outcome.isCrashDecode : Outcome → Bool
  | .crashDecode _ => true
  | _ => false

/-- Observable UI side effects of a handler run, in execution order. -/
inductive UiEffect where
  | resetCheckboxes
  | clearDisplays
  | storeInsert (key : String)
  | updateTable
  | signalComplete
  | reflectUI
  | appendUserDisplay (line : String)
  | appendCtrlDisplay (line : String)
  | appendEstDisplay (line : String)
  deriving Repr, DecidableEq, BEq

/-- Result of a handler invocation: final outcome plus the effect trace. -/
structure HandlerResult where
  outcome : Outcome
  effects : List UiEffect
  deriving Repr, DecidableEq

/-- The message store of a handler result's final state. -/
def HandlerResult.messages (r : HandlerResult) : MessageStore :=
  r.outcome.state.messages

/-- Whether the fetch-complete signal fired during the run. -/
def HandlerResult.signaled (r : HandlerResult) : Bool :=
  r.effects.contains .signalComplete

/-! ### Reflection (`get_param_value` / `update_ui_from_params`) -/

/-- The table read inside `get_param_value`: look the column index up in
`param_index` and read the value cell `self.table.item(1, col).text()`.
`none` stands for the `AttributeError` raised when the cell is absent (the
catalog lookup itself succeeds at every call site). -/
def table_text (s : PanelState) (name : String) : Option String :=
  match param_index.find? fun p => p.1 == name with
  | some p => (s.tableData.get? p.2.1.toNat).map fun e => e.2.2
  | none => none

/-- `update_ui_from_params`: read every catalog entry back from the table in
source order, converting each to its field's native type; apply the widget
updates that this development tracks (arming and middle-point checkboxes, the
CAN-speed combo selection, the control-word checkbox row).  Spin-box display
values are not tracked, but their conversions are still performed because
`int(...)`/`float(...)` can raise; the returned flag is `true` when an
uncaught conversion exception ends the run, paired with the state at that
point. -/
def update_ui_from_params (s : PanelState) : Bool × PanelState :=
  match (table_text s "Node ID").bind pyInt with
  | none => (true, s)
  | some _ =>
  match (table_text s "ESC Index").bind pyInt with
  | none => (true, s)
  | some _ =>
  match (table_text s "Arming").bind pyInt with
  | none => (true, s)
  | some arming =>
  let s := { s with arming_chk := arming ≠ 0 }
  match table_text s "Telemetry Rate" with
  | none => (true, s)
  | some _ =>
  match (table_text s "CAN Speed").bind pyInt with
  | none => (true, s)
  | some bv =>
  let s :=
    match bmapReverse bv with
    | some key => { s with baudrate_sel := key }
    | none => s
  match (table_text s "Max Speed").bind parsePyFloat with
  | none => (true, s)
  | some _ =>
  match (table_text s "Control Word").bind pyInt with
  | none => (true, s)
  | some cw =>
  let s := { s with checkboxes := set_checkboxes_from_byte cw }
  match (table_text s "Midle Point").bind pyInt with
  | none => (true, s)
  | some mp =>
  let s := { s with midle_chk := mp ≠ 0 }
  match (table_text s "Acceleration").bind parsePyFloat with
  | none => (true, s)
  | some _ =>
  match (table_text s "Motor Poles").bind pyInt with
  | none => (true, s)
  | some _ =>
  match (table_text s "KP").bind parsePyFloat with
  | none => (true, s)
  | some _ =>
  match (table_text s "KI").bind parsePyFloat with
  | none => (true, s)
  | some _ => (false, s)

/-! ### The debug-log message handler -/

/-- The value-decoding rule of the informational branch, keyed by the
correlated index (`if self.current_index - 1 in self.integer_params_index:
value = str(int(float(value)))`): Integer-kind values are parsed as floats,
truncated toward zero and re-stringified; other values are kept verbatim.
`none` is the uncaught `ValueError` from `float(value)`. -/
def decodeValue (idx : Int) (v : String) : Option String :=
  if idx ∈ integer_params_index then (parsePyFloat v).map fun f => toString (pyTrunc f)
  else some v

/-- Tail of the informational branch, from `if len(self.messages) ==
len(self.param_index)` on: set the completion label, and reflect the table
into the widgets.  Runs after every informational message, whether or not an
entry was just inserted. -/
def reflect_and_finish (s : PanelState) (effs : List UiEffect) : HandlerResult :=
  if s.messages.length == param_index.length then
    let s := { s with fetch_label := "All parameters fetched" }
    let effs := effs ++ [UiEffect.signalComplete, UiEffect.reflectUI]
    match update_ui_from_params s with
    | (true, s2) => ⟨.crashReflect s2, effs⟩
    | (false, s2) => ⟨.ok s2, effs⟩
  else ⟨.ok s, effs⟩

/-- Store a decoded entry (`self.messages[key] = (self.current_index - 1,
value)`), rebuild the table (`update_table`), then run the completion
check. -/
def store_and_finish (s : PanelState) (effs : List UiEffect) (key : String)
    (idx : Int) (v : String) : HandlerResult :=
  let s := { s with messages := insertPy s.messages key (idx, v) }
  let s := { s with tableData := s.messages }
  reflect_and_finish s (effs ++ [UiEffect.storeInsert key, UiEffect.updateTable])

/-- The informational branch of `handle_debug_log_message` (lines 601-619):
clear the checkboxes and the three displays, split the text on the space
character, and when at least two parts result, decode the value by the kind
registered for index `current_index - 1` and store it under the first part;
finally run the completion check.  A value that `float(...)` rejects while
the correlated index is Integer-kind raises an uncaught `ValueError`. -/
def handleInfo (s0 : PanelState) (text : String) : HandlerResult :=
  let s1 := { s0 with checkboxes := set_checkboxes_from_byte 0,
                      ctrlDisplay := [], estDisplay := [], userDisplay := [] }
  let effs := [UiEffect.resetCheckboxes, UiEffect.clearDisplays]
  match pySplitSpace text with
  | key :: v1 :: vrest =>
    let value := joinSpace (v1 :: vrest)
    match decodeValue (s0.current_index - 1) value with
    | none => ⟨.crashDecode s1, effs⟩
    | some dv => store_and_finish s1 effs key (s0.current_index - 1) dv
  | _ => reflect_and_finish s1 effs

/-- The non-informational branch (lines 580-599): search the text for each
of the three markers and append the decoded match, if any, to the matching
display. -/
def handleNonInfo (s : PanelState) (text : String) : HandlerResult :=
  let (s1, e1) :=
    match searchUser text with
    | some m => ({ s with userDisplay := s.userDisplay ++ [replace_enum_values m] },
                 [UiEffect.appendUserDisplay (replace_enum_values m)])
    | none => (s, [])
  let (s2, e2) :=
    match searchCtrl text with
    | some m => ({ s1 with ctrlDisplay := s1.ctrlDisplay ++ [replace_enum_values m] },
                 [UiEffect.appendCtrlDisplay (replace_enum_values m)])
    | none => (s1, [])
  let (s3, e3) :=
    match searchEst text with
    | some m => ({ s2 with estDisplay := s2.estDisplay ++ [replace_enum_values m] },
                 [UiEffect.appendEstDisplay (replace_enum_values m)])
    | none => (s2, [])
  ⟨.ok s3, e1 ++ e2 ++ e3⟩

/-- `handle_debug_log_message`, dispatching on the message severity level. -/
def handle_debug_log_message (level : Int) (text : String) (s : PanelState) : HandlerResult :=
  if level != INFO then handleNonInfo s text
  else handleInfo s text

/-! ### Fetch session and set actions -/

/-- `int(self.node_select.currentText().split(":")[0])`, the node-id parse
shared by `send_param_requests` and `send_value` (the `Option` models the
`ValueError` on an unparsable combo text). -/
def selectedNodeId (s : PanelState) : Option Int :=
  pyInt (String.mk (s.node_select_text.data.takeWhile fun c => c ≠ ':'))

/-- `send_param_requests` (the Fetch All action): reset the label and the
message store, parse the target node id, reset the cursor and start a fresh
periodic timer (replacing, and thereby destroying and stopping, any previous
one). -/
def send_param_requests (s : PanelState) : Option PanelState :=
  let s := { s with fetch_label := "Fetch all parameters by index about 10s",
                    messages := [] }
  match selectedNodeId s with
  | none => none
  | some nid =>
    some { s with nodeid := nid, current_index := 0,
                  timerGen := s.timerGen + 1, timerActive := true }

/-- One timer tick (`send_next_request`): below the catalog size, emit one
index-only read request for the cursor and advance it; at the catalog size,
stop the timer and reset the cursor. -/
def send_next_request (s : PanelState) : PanelState × Option Request :=
  if s.current_index < (param_index.length : Int) then
    ({ s with current_index := s.current_index + 1 },
      some { index := s.current_index, value := none, dest := s.nodeid })
  else
    ({ s with timerActive := false, current_index := 0 }, none)

/-- Run `n` consecutive timer ticks, collecting the emitted requests. -/
def runTicks : Nat → PanelState → PanelState × List Request
  | 0, s => (s, [])
  | n + 1, s =>
    let (s1, r) := send_next_request s
    let (s2, rs) := runTicks n s1
    (s2, r.toList ++ rs)

/-- `send_value`: parse the target node id, then submit one write request
whose wire representation is chosen by the run-time type of `value`
(`real_value` for floats, `integer_value` otherwise), with the no-op
completion callback. -/
def send_value (s : PanelState) (index : Int) (value : PValue) :
    Option (PanelState × Request) :=
  match selectedNodeId s with
  | none => none
  | some nid =>
    let s := { s with nodeid := nid }
    match value with
    | .pint i => some (s, { index := index, value := some (.pint i), dest := nid })
    | .preal n d => some (s, { index := index, value := some (.preal n d), dest := nid })

/-- The CAN-speed set action `on_baudrate_set`: look up the catalog index of
"CAN Speed", set the fetch cursor to that index plus one, map the selected
label through `bmap`, and submit the write. -/
def on_baudrate_set (s : PanelState) : Option (PanelState × Request) :=
  match param_index.find? fun p => p.1 == "CAN Speed" with
  | none => none
  | some p =>
    let com_index := p.2.1
    let s := { s with current_index := com_index + 1 }
    match bmapLookup s.baudrate_sel with
    | none => none
    | some baud => send_value s com_index (.pint baud)

/-- The control-word set action `on_checkbox_set`: look up the catalog index
of "Control Word", set the fetch cursor to that index plus one, pack the
checkboxes into a byte and submit the write. -/
def on_checkbox_set (s : PanelState) : Option (PanelState × Request) :=
  match param_index.find? fun p => p.1 == "Control Word" with
  | none => none
  | some p =>
    let com_index := p.2.1
    let s := { s with current_index := com_index + 1 }
    send_value s com_index (.pint (get_byte_from_checkboxes s))

/-- Helper for `specWhitespaceTokens`: split at every whitespace character,
keeping empty pieces (they are filtered afterwards, giving `str.split()`
semantics). -/
def splitWhitespaceAux : List Char → List Char → List String
  | [], acc => [String.mk acc.reverse]
  | c :: rest, acc =>
    if isReSpace c then String.mk acc.reverse :: splitWhitespaceAux rest []
    else splitWhitespaceAux rest (c :: acc)

/-- Modelled from the spec: the claims describe message texts as split into
"whitespace-delimited tokens" (Python `str.split()` with no argument, which
splits on runs of arbitrary whitespace and drops empty pieces).  This is the
comparator definition for those claims; the source itself splits on the
single space character. -/
def specWhitespaceTokens (s : String) : List String :=
  (splitWhitespaceAux s.data []).filter fun t => t ≠ ""

/-! ### Concrete states used to instantiate the theorems -/

/-- A freshly opened panel with node `1` selected: empty store, cursor `0`,
no active timer, all checkboxes unchecked, empty displays. -/
def panel0 : PanelState :=
  { messages := [], current_index := 0, nodeid := 0, node_select_text := "1",
    timerGen := 0, timerActive := false, tableData := [], fetch_label := "",
    checkboxes := List.replicate 7 false, ctrlDisplay := [], estDisplay := [],
    userDisplay := [], arming_chk := false, midle_chk := false,
    baudrate_sel := "1MHz->12" }

/-- A fully populated message store: twelve decoded responses, one per
catalog index, with well-formed value texts. -/
def fullStore : MessageStore :=
  [("NodeID", 0, "1"), ("ESCIndex", 1, "0"), ("Arming", 2, "0"),
   ("TelemetryRate", 3, "25"), ("CANSpeed", 4, "11"), ("MaxSpeed", 5, "5.0"),
   ("ControlWord", 6, "0"), ("MidlePoint", 7, "0"), ("Acceleration", 8, "2.0"),
   ("MotorPoles", 9, "14"), ("KP", 10, "3.0"), ("KI", 11, "0.059")]

/-- The panel after a completed fetch: store and table hold `fullStore`. -/
def panelFull : PanelState :=
  { panel0 with messages := fullStore, tableData := fullStore }

/-- A panel mid-fetch: one collected entry, cursor advanced, timer running. -/
def panelMidFetch : PanelState :=
  { panel0 with messages := [("old", 3, "7")], tableData := [("old", 3, "7")],
                current_index := 5, timerGen := 2, timerActive := true }

/-- The state `send_param_requests` produces from `panelMidFetch`: the store
and cursor are reset and a fresh timer started, while the stale table
contents are left in place (only `update_table` rewrites them). -/
def panelNew : PanelState :=
  { panel0 with fetch_label := "Fetch all parameters by index about 10s",
                tableData := [("old", 3, "7")], nodeid := 1,
                timerGen := 3, timerActive := true }

/-! ### Helper lemmas -/

theorem subScan_eq_of_matchFree :
    ∀ cs : List Char, matchFreeB cs = true → ∀ fuel, subScan fuel cs = cs := by
  intro cs
  induction cs with
  | nil => intro _ fuel; cases fuel <;> rfl
  | cons c cs ih =>
    intro h fuel
    rw [matchFreeB, Bool.and_eq_true, Option.isNone_iff_eq_none] at h
    cases fuel with
    | zero => rfl
    | succ f => rw [subScan, h.1, ih h.2]

theorem update_ui_preserves (s : PanelState) :
    ((update_ui_from_params s).2).messages = s.messages
    ∧ ((update_ui_from_params s).2).ctrlDisplay = s.ctrlDisplay
    ∧ ((update_ui_from_params s).2).estDisplay = s.estDisplay
    ∧ ((update_ui_from_params s).2).userDisplay = s.userDisplay
    ∧ ((update_ui_from_params s).2).current_index = s.current_index := by
  unfold update_ui_from_params
  repeat' first
    | split
    | (dsimp only)
  all_goals exact ⟨rfl, rfl, rfl, rfl, rfl⟩

theorem reflect_and_finish_spec (s : PanelState) (effs : List UiEffect) :
    (reflect_and_finish s effs).messages = s.messages
    ∧ (reflect_and_finish s effs).outcome.state.ctrlDisplay = s.ctrlDisplay
    ∧ (reflect_and_finish s effs).outcome.state.estDisplay = s.estDisplay
    ∧ (reflect_and_finish s effs).outcome.state.userDisplay = s.userDisplay
    ∧ (reflect_and_finish s effs).outcome.isCrashDecode = false
    ∧ (reflect_and_finish s effs).effects
        = effs ++ (if s.messages.length == param_index.length
                   then [UiEffect.signalComplete, UiEffect.reflectUI] else [])
    ∧ ((s.messages.length == param_index.length) = false →
        (reflect_and_finish s effs).outcome = .ok s)
    ∧ ((s.messages.length == param_index.length) = false →
        (reflect_and_finish s effs).outcome.state.checkboxes = s.checkboxes) := by
  unfold reflect_and_finish
  split
  case isTrue h =>
    dsimp only
    cases hu : update_ui_from_params { s with fetch_label := "All parameters fetched" } with
    | mk b s2 =>
      have hp := update_ui_preserves { s with fetch_label := "All parameters fetched" }
      rw [hu] at hp
      dsimp at hp
      cases b <;>
        simp_all [HandlerResult.messages, Outcome.state, Outcome.isCrashDecode]
  case isFalse h =>
    simp [HandlerResult.messages, Outcome.state, Outcome.isCrashDecode, h]

theorem store_and_finish_spec (s : PanelState) (effs : List UiEffect)
    (key : String) (idx : Int) (v : String) :
    (store_and_finish s effs key idx v).messages = insertPy s.messages key (idx, v)
    ∧ (store_and_finish s effs key idx v).outcome.state.ctrlDisplay = s.ctrlDisplay
    ∧ (store_and_finish s effs key idx v).outcome.state.estDisplay = s.estDisplay
    ∧ (store_and_finish s effs key idx v).outcome.state.userDisplay = s.userDisplay
    ∧ (store_and_finish s effs key idx v).outcome.isCrashDecode = false
    ∧ (store_and_finish s effs key idx v).effects
        = (effs ++ [UiEffect.storeInsert key, UiEffect.updateTable])
          ++ (if (insertPy s.messages key (idx, v)).length == param_index.length
              then [UiEffect.signalComplete, UiEffect.reflectUI] else [])
    ∧ (((insertPy s.messages key (idx, v)).length == param_index.length) = false →
        (store_and_finish s effs key idx v).outcome.state.checkboxes = s.checkboxes) := by
  have hs := reflect_and_finish_spec
    { s with messages := insertPy s.messages key (idx, v),
             tableData := insertPy s.messages key (idx, v) }
    (effs ++ [UiEffect.storeInsert key, UiEffect.updateTable])
  exact ⟨hs.1, hs.2.1, hs.2.2.1, hs.2.2.2.1, hs.2.2.2.2.1, hs.2.2.2.2.2.1,
    hs.2.2.2.2.2.2.2⟩

theorem lookupPy_insertPy (m : MessageStore) (k : String) (v : Int × String) :
    lookupPy (insertPy m k v) k = some v := by
  induction m with
  | nil => simp [insertPy, lookupPy]
  | cons hd tl ih =>
    obtain ⟨k0, v0⟩ := hd
    rw [insertPy]
    split
    case _ h => simp [lookupPy]
    case _ h => simpa [lookupPy, List.find?, show (k0 == k) = false by simpa using h] using ih

/-! ### Claim theorems -/

/-- C6 counterexample: the enum decoder substitutes the full Python
enumerator name `CTRL_State_OffLine`, not the short name `OffLine` the claim
gives, so the claim's example output is wrong. -/
theorem c6_counterexample :
    replace_enum_values "state change CtrlState: 2 happened"
      ≠ "state change CtrlState: OffLine happened" := by
  decide

/-- C6 (amended): the enum decoder replaces each `Marker: digits` occurrence
with the marker followed by the full enumerator name from the matching table
(so the example yields `CtrlState: CTRL_State_OffLine`); codes outside the
table's range are left unreplaced; multiple markers are replaced
independently in order of appearance; and a string in which no position
matches the marker pattern is returned unaltered. -/
theorem c6_theorem :
    replace_enum_values "state change CtrlState: 2 happened"
      = "state change CtrlState: CTRL_State_OffLine happened"
    ∧ replace_enum_values "CtrlState: 99" = "CtrlState: 99"
    ∧ replace_enum_values "CtrlState: 2 EstState: 3 UserErrorCode: 0"
      = "CtrlState: CTRL_State_OffLine EstState: EST_State_Rs UserErrorCode: USER_ErrorCode_NoError"
    ∧ ∀ s : String, matchFreeB s.data = true → replace_enum_values s = s := by
  refine ⟨by decide, by decide, by decide, ?_⟩
  intro s h
  unfold replace_enum_values
  rw [subScan_eq_of_matchFree s.data h]

/-- C6 witness: a marker-free string is returned unaltered. -/
theorem c6_witness :
    matchFreeB "no markers here".data = true
    ∧ replace_enum_values "no markers here" = "no markers here" :=
  ⟨by decide, c6_theorem.2.2.2 "no markers here" (by decide)⟩

/-- C7: the CAN-bitrate table round-trips: every (label, code) pair of
`bmap` is recovered by both the forward lookup used on write and the reverse
lookup used on reflect; selecting "500KHz->11" submits a write of integer 11
to catalog index 4; and reflecting a table whose stored CAN-speed value is
11 re-selects exactly the label "500KHz->11". -/
theorem c7_theorem :
    (∀ p ∈ bmap, bmapLookup p.1 = some p.2 ∧ bmapReverse p.2 = some p.1)
    ∧ (on_baudrate_set { panel0 with baudrate_sel := "500KHz->11" }).map
        (fun r => (r.2.index, r.2.value, r.1.current_index))
        = some (4, some (PValue.pint 11), 5)
    ∧ (update_ui_from_params panelFull).2.baudrate_sel = "500KHz->11"
    ∧ (update_ui_from_params panelFull).1 = false := by
  exact ⟨by decide, by decide, by decide, by decide⟩

/-- C7 witness: the round trip at the claim's own example pair. -/
theorem c7_witness :
    ("500KHz->11", (11 : Int)) ∈ bmap
    ∧ bmapLookup "500KHz->11" = some 11
    ∧ bmapReverse 11 = some "500KHz->11" :=
  ⟨by decide, (c7_theorem.1 ("500KHz->11", 11) (by decide)).1,
    (c7_theorem.1 ("500KHz->11", 11) (by decide)).2⟩

/-- C1 counterexample: the claim quantifies over messages with at least two
whitespace-delimited tokens, but the handler splits on the space character
only: the two-token message with a tab separator is dropped without storing
anything, and in particular nothing is keyed by its first token. -/
theorem c1_counterexample :
    2 ≤ (specWhitespaceTokens "a\tb").length
    ∧ (handle_debug_log_message INFO "a\tb" panel0).messages = panel0.messages
    ∧ lookupPy (handle_debug_log_message INFO "a\tb" panel0).messages "a" = none := by
  decide

/-- C1 (amended): for every informational message whose text splits on the
space character into at least two parts, when the kind-directed decode of the
remainder succeeds the handler stores exactly one entry keyed by the part
before the first space, carrying index `current_index - 1` and the decoded
value, overwriting any prior entry for that key; Integer-kind decoding
parses the value as a float, truncates and re-stringifies ("7" and "7.0"
store "7", "6.9" stores "6"), and other values are kept verbatim ("0.059"
stays "0.059"). -/
theorem c1_theorem :
    (∀ (s : PanelState) (text key v1 : String) (vrest : List String) (dv : String),
        pySplitSpace text = key :: v1 :: vrest →
        decodeValue (s.current_index - 1) (joinSpace (v1 :: vrest)) = some dv →
        (handle_debug_log_message INFO text s).messages
            = insertPy s.messages key (s.current_index - 1, dv)
        ∧ lookupPy (handle_debug_log_message INFO text s).messages key
            = some (s.current_index - 1, dv)
        ∧ (handle_debug_log_message INFO text s).outcome.isCrashDecode = false)
    ∧ decodeValue 2 "7" = some "7"
    ∧ decodeValue 2 "7.0" = some "7"
    ∧ decodeValue 2 "6.9" = some "6"
    ∧ decodeValue 5 "0.059" = some "0.059" := by
  refine ⟨?_, by decide, by decide, by decide, by decide⟩
  intro s text key v1 vrest dv hsplit hdec
  have hh : handle_debug_log_message INFO text s = handleInfo s text := rfl
  rw [hh]
  unfold handleInfo
  rw [hsplit]
  dsimp only
  rw [hdec]
  have hs := store_and_finish_spec
    { s with checkboxes := set_checkboxes_from_byte 0,
             ctrlDisplay := [], estDisplay := [], userDisplay := [] }
    [UiEffect.resetCheckboxes, UiEffect.clearDisplays]
    key (s.current_index - 1) dv
  exact ⟨hs.1, by rw [hs.1]; exact lookupPy_insertPy _ _ _, hs.2.2.2.2.1⟩

/-- C1 witness: a concrete Integer-kind response "Arming 1" received at
cursor 3 stores ("Arming", (2, "1")). -/
theorem c1_witness :
    pySplitSpace "Arming 1" = ["Arming", "1"]
    ∧ decodeValue (({ panel0 with current_index := 3 } : PanelState).current_index - 1) "1"
        = some "1"
    ∧ (handle_debug_log_message INFO "Arming 1" { panel0 with current_index := 3 }).messages
        = insertPy panel0.messages "Arming" (2, "1") :=
  ⟨by decide, by decide,
    (c1_theorem.1 { panel0 with current_index := 3 } "Arming 1" "Arming" "1" [] "1"
      (by decide) (by decide)).1⟩

/-- C3 counterexample: the claim quantifies over messages with fewer than two
whitespace-delimited tokens, but a message consisting of a space followed by
one token splits on the space character into two parts, so the handler does
store an entry (under the empty-string key). -/
theorem c3_counterexample :
    (specWhitespaceTokens " x").length < 2
    ∧ (handle_debug_log_message INFO " x" panel0).messages ≠ panel0.messages := by
  decide

/-- C3 (amended): for every informational message whose text splits on the
space character into fewer than two parts, the correlation step neither
creates nor modifies any store entry and does not raise: the store after
handling equals the store before, and the decode-crash branch is not
taken. -/
theorem c3_theorem :
    ∀ (s : PanelState) (text : String),
      (pySplitSpace text).length < 2 →
      (handle_debug_log_message INFO text s).messages = s.messages
      ∧ (handle_debug_log_message INFO text s).outcome.isCrashDecode = false := by
  intro s text h
  have hh : handle_debug_log_message INFO text s = handleInfo s text := rfl
  rw [hh]
  unfold handleInfo
  cases hsplit : pySplitSpace text with
  | nil =>
    dsimp only
    have hs := reflect_and_finish_spec
      { s with checkboxes := set_checkboxes_from_byte 0,
               ctrlDisplay := [], estDisplay := [], userDisplay := [] }
      [UiEffect.resetCheckboxes, UiEffect.clearDisplays]
    exact ⟨hs.1, hs.2.2.2.2.1⟩
  | cons k rest =>
    cases rest with
    | nil =>
      dsimp only
      have hs := reflect_and_finish_spec
        { s with checkboxes := set_checkboxes_from_byte 0,
                 ctrlDisplay := [], estDisplay := [], userDisplay := [] }
        [UiEffect.resetCheckboxes, UiEffect.clearDisplays]
      exact ⟨hs.1, hs.2.2.2.2.1⟩
    | cons v1 vrest =>
      rw [hsplit] at h
      simp at h
      omega

/-- C3 witness: the claim's own example message. -/
theorem c3_witness :
    ((pySplitSpace "onlyonetoken")).length < 2
    ∧ (handle_debug_log_message INFO "onlyonetoken" panel0).messages = panel0.messages
    ∧ (handle_debug_log_message INFO "onlyonetoken" panel0).outcome.isCrashDecode = false :=
  ⟨by decide, (c3_theorem panel0 "onlyonetoken" (by decide)).1,
    (c3_theorem panel0 "onlyonetoken" (by decide)).2⟩

/-- C10: for every informational message with at least two space-separated
parts whose correlated index is Integer-kind, if the value text is not
parseable as a float the handler ends in the uncaught decode exception: the
crash branch is taken, nothing is stored, and no store-insert effect is
emitted. -/
theorem c10_theorem :
    ∀ (s : PanelState) (text key v1 : String) (vrest : List String),
      pySplitSpace text = key :: v1 :: vrest →
      (s.current_index - 1) ∈ integer_params_index →
      parsePyFloat (joinSpace (v1 :: vrest)) = none →
      (handle_debug_log_message INFO text s).outcome.isCrashDecode = true
      ∧ (handle_debug_log_message INFO text s).messages = s.messages
      ∧ ∀ k, (handle_debug_log_message INFO text s).effects.contains
          (UiEffect.storeInsert k) = false := by
  intro s text key v1 vrest hsplit hmem hparse
  have hh : handle_debug_log_message INFO text s = handleInfo s text := rfl
  rw [hh]
  unfold handleInfo
  rw [hsplit]
  dsimp only
  rw [show decodeValue (s.current_index - 1) (joinSpace (v1 :: vrest)) = none by
    simp [decodeValue, hmem, hparse]]
  refine ⟨rfl, rfl, fun k => ?_⟩
  simp only [HandlerResult.effects, List.contains]
  exact rfl

/-- C10 witness: the claim's example "Arming on" at cursor 3 (correlated
index 2, Integer-kind) crashes the decode step. -/
theorem c10_witness :
    pySplitSpace "Arming on" = ["Arming", "on"]
    ∧ (({ panel0 with current_index := 3 } : PanelState).current_index - 1)
        ∈ integer_params_index
    ∧ parsePyFloat "on" = none
    ∧ (handle_debug_log_message INFO "Arming on"
        { panel0 with current_index := 3 }).outcome.isCrashDecode = true :=
  ⟨by decide, by decide, by decide,
    (c10_theorem { panel0 with current_index := 3 } "Arming on" "Arming" "on" []
      (by decide) (by decide) (by decide)).1⟩

theorem contains_signal_append (effs : List UiEffect) :
    (effs ++ [UiEffect.signalComplete, UiEffect.reflectUI]).contains
      UiEffect.signalComplete = true := by
  induction effs with
  | nil => rfl
  | cons e t ih =>
    rw [List.cons_append]
    simp only [List.contains, List.elem]
    cases h : (UiEffect.signalComplete == e)
    · exact ih
    · rfl

/-- Ascending-order lemma for the fetch ticker: starting anywhere at most
`k` below the catalog size, `k` ticks emit exactly `k` requests whose
indices are the consecutive cursor values, all addressed to the stored
target node, advancing the cursor by `k` and leaving the timer alone. -/
theorem runTicks_spec (k : Nat) :
    ∀ s : PanelState,
      s.current_index + k ≤ (param_index.length : Int) →
      ((runTicks k s).2.map fun r => r.index)
          = (List.range k).map (fun i : Nat => s.current_index + (i : Int))
      ∧ (∀ r ∈ (runTicks k s).2, r.dest = s.nodeid ∧ r.value = none)
      ∧ (runTicks k s).2.length = k
      ∧ (runTicks k s).1.current_index = s.current_index + k
      ∧ (runTicks k s).1.timerActive = s.timerActive
      ∧ (runTicks k s).1.nodeid = s.nodeid := by
  induction k with
  | zero => intro s h; simp [runTicks]
  | succ n ih =>
    intro s h
    have hlt : s.current_index < (param_index.length : Int) := by
      have hc : ((n + 1 : Nat) : Int) = (n : Int) + 1 := by push_cast; ring
      omega
    rw [runTicks]
    unfold send_next_request
    rw [if_pos hlt]
    dsimp only
    simp only [Option.toList_some, List.singleton_append]
    have hih := ih { s with current_index := s.current_index + 1 }
      (by
        have hc : ((n + 1 : Nat) : Int) = (n : Int) + 1 := by push_cast; ring
        dsimp only
        omega)
    rcases hih with ⟨h1, h2, h3, h4, h5, h6⟩
    refine ⟨?_, ?_, ?_, ?_, ?_, ?_⟩
    · rw [List.map_cons, h1, List.range_succ_eq_map, List.map_cons, List.map_map]
      dsimp only
      rw [Nat.cast_zero, add_zero]
      congr 1
      apply List.map_congr_left
      intro i _
      dsimp only [Function.comp]
      push_cast
      ring
    · intro r hr
      rcases List.mem_cons.mp hr with rfl | hr
      · exact ⟨rfl, rfl⟩
      · exact h2 r hr
    · rw [List.length_cons, h3]
    · rw [h4]
      dsimp only
      push_cast
      ring
    · exact h5
    · exact h6

/-- C2: on every fetch tick, a cursor below the catalog size `N = 12` emits
exactly one index-only request carrying the cursor, addressed to the stored
target node, and increments the cursor, leaving the timer running; a cursor
equal to `N` emits nothing, stops the timer and resets the cursor to 0;
consequently, from a fresh session the first `N` ticks emit requests with
indices exactly `0..11` in ascending order, one per tick, and the following
tick stops the ticker with the cursor back at 0. -/
theorem c2_theorem :
    (∀ s : PanelState, s.current_index < (param_index.length : Int) →
        (send_next_request s).2
            = some { index := s.current_index, value := none, dest := s.nodeid }
        ∧ (send_next_request s).1.current_index = s.current_index + 1
        ∧ (send_next_request s).1.timerActive = s.timerActive
        ∧ (send_next_request s).1.messages = s.messages)
    ∧ (∀ s : PanelState, s.current_index = (param_index.length : Int) →
        (send_next_request s).2 = none
        ∧ (send_next_request s).1.timerActive = false
        ∧ (send_next_request s).1.current_index = 0)
    ∧ (∀ s : PanelState, s.current_index = 0 →
        ((runTicks param_index.length s).2.map fun r => r.index)
            = [0, 1, 2, 3, 4, 5, 6, 7, 8, 9, 10, 11]
        ∧ (runTicks param_index.length s).2.length = param_index.length
        ∧ (∀ r ∈ (runTicks param_index.length s).2, r.dest = s.nodeid ∧ r.value = none)
        ∧ (send_next_request (runTicks param_index.length s).1).2 = none
        ∧ (send_next_request (runTicks param_index.length s).1).1.timerActive = false
        ∧ (send_next_request (runTicks param_index.length s).1).1.current_index = 0) := by
  refine ⟨?_, ?_, ?_⟩
  · intro s h
    unfold send_next_request
    rw [if_pos h]
    exact ⟨rfl, rfl, rfl, rfl⟩
  · intro s h
    unfold send_next_request
    rw [if_neg (by omega)]
    exact ⟨rfl, rfl, rfl⟩
  · intro s h
    have hs := runTicks_spec param_index.length s (by rw [h]; simp)
    rcases hs with ⟨h1, h2, h3, h4, h5, h6⟩
    have hstop : (send_next_request (runTicks param_index.length s).1).2 = none
        ∧ (send_next_request (runTicks param_index.length s).1).1.timerActive = false
        ∧ (send_next_request (runTicks param_index.length s).1).1.current_index = 0 := by
      unfold send_next_request
      rw [if_neg (by rw [h4, h]; simp)]
      exact ⟨rfl, rfl, rfl⟩
    refine ⟨?_, h3, h2, hstop.1, hstop.2.1, hstop.2.2⟩
    rw [h1, h]
    decide

/-- C2 witness: the per-tick behaviour and the full ascending request trace
at a concrete fresh session. -/
theorem c2_witness :
    panel0.current_index < (param_index.length : Int)
    ∧ (send_next_request panel0).2
        = some { index := panel0.current_index, value := none, dest := panel0.nodeid }
    ∧ ((runTicks param_index.length panel0).2.map fun r => r.index)
        = [0, 1, 2, 3, 4, 5, 6, 7, 8, 9, 10, 11] :=
  ⟨by decide, (c2_theorem.1 panel0 (by decide)).1, (c2_theorem.2.2 panel0 (by decide)).1⟩

/-- C4 counterexample: with the store already full (12 entries), a malformed
informational message that inserts nothing still fires the fetch-complete
signal again, contradicting "after an insertion" and "only the first
time". -/
theorem c4_counterexample :
    panelFull.messages.length = param_index.length
    ∧ (handle_debug_log_message INFO "junk" panelFull).messages = panelFull.messages
    ∧ (∀ k, (handle_debug_log_message INFO "junk" panelFull).effects.contains
        (UiEffect.storeInsert k) = false)
    ∧ (handle_debug_log_message INFO "junk" panelFull).signaled = true := by
  refine ⟨by decide, by decide, fun k => ?_, by decide⟩
  exact rfl

/-- C4 (amended): on every informational message that does not end in the
decode crash, the handler checks completion after the (optional) insertion
and fires the fetch-complete signal exactly when the store's size equals the
catalog's count at that moment - also on messages that inserted nothing, and
again on every later informational message while the store stays exactly
full. -/
theorem c4_theorem :
    ∀ (s : PanelState) (text : String),
      (handle_debug_log_message INFO text s).outcome.isCrashDecode = false →
      ((handle_debug_log_message INFO text s).signaled = true
        ↔ (handle_debug_log_message INFO text s).messages.length = param_index.length) := by
  intro s text hnc
  have hh : handle_debug_log_message INFO text s = handleInfo s text := rfl
  rw [hh] at hnc ⊢
  unfold handleInfo at hnc ⊢
  cases hsplit : pySplitSpace text with
  | nil =>
    rw [hsplit] at hnc
    dsimp only at hnc ⊢
    have hs := reflect_and_finish_spec
      { s with checkboxes := set_checkboxes_from_byte 0,
               ctrlDisplay := [], estDisplay := [], userDisplay := [] }
      [UiEffect.resetCheckboxes, UiEffect.clearDisplays]
    rw [HandlerResult.signaled, hs.2.2.2.2.2.1, hs.1]
    cases hb : (s.messages.length == param_index.length) <;>
      simp_all +decide [HandlerResult.messages]
  | cons key rest =>
    cases rest with
    | nil =>
      rw [hsplit] at hnc
      dsimp only at hnc ⊢
      have hs := reflect_and_finish_spec
        { s with checkboxes := set_checkboxes_from_byte 0,
                 ctrlDisplay := [], estDisplay := [], userDisplay := [] }
        [UiEffect.resetCheckboxes, UiEffect.clearDisplays]
      rw [HandlerResult.signaled, hs.2.2.2.2.2.1, hs.1]
      cases hb : (s.messages.length == param_index.length) <;>
        simp_all +decide [HandlerResult.messages]
    | cons v1 vrest =>
      rw [hsplit] at hnc
      dsimp only at hnc ⊢
      cases hdec : decodeValue (s.current_index - 1) (joinSpace (v1 :: vrest)) with
      | none => rw [hdec] at hnc; simp [Outcome.isCrashDecode] at hnc
      | some dv =>
        rw [hdec] at hnc
        dsimp only at hnc ⊢
        have hs := store_and_finish_spec
          { s with checkboxes := set_checkboxes_from_byte 0,
                   ctrlDisplay := [], estDisplay := [], userDisplay := [] }
          [UiEffect.resetCheckboxes, UiEffect.clearDisplays]
          key (s.current_index - 1) dv
        rw [HandlerResult.signaled, hs.2.2.2.2.2.1, hs.1]
        cases hb : ((insertPy s.messages key (s.current_index - 1, dv)).length
            == param_index.length) <;>
          simp_all +decide [HandlerResult.messages] <;>
          rfl

/-- C4 witness: on a state whose store is not full, the handler neither
crashes nor signals. -/
theorem c4_witness :
    (handle_debug_log_message INFO "junk" panel0).outcome.isCrashDecode = false
    ∧ ((handle_debug_log_message INFO "junk" panel0).signaled = true
        ↔ (handle_debug_log_message INFO "junk" panel0).messages.length
            = param_index.length) :=
  ⟨by decide, c4_theorem panel0 "junk" (by decide)⟩

/-- C5: starting a fetch, whatever the prior session state (mid-fetch,
partially populated store, running ticker), resets the message store to
empty (so no earlier entry survives by any key), resets the cursor to 0, and
starts a fresh timer generation (the old `QTimer` object is replaced, hence
destroyed and stopped) before periodic requesting begins. -/
theorem c5_theorem :
    ∀ (s s' : PanelState), send_param_requests s = some s' →
      s'.messages = []
      ∧ (∀ k, lookupPy s'.messages k = none)
      ∧ s'.current_index = 0
      ∧ s'.timerActive = true
      ∧ s'.timerGen = s.timerGen + 1 := by
  intro s s' h
  unfold send_param_requests at h
  dsimp only at h
  rcases hn : selectedNodeId
      { s with fetch_label := "Fetch all parameters by index about 10s",
               messages := [] } with - | nid
  · rw [hn] at h
    exact absurd h (by simp)
  · rw [hn] at h
    simp only [Option.some.injEq] at h
    subst h
    exact ⟨rfl, fun k => rfl, rfl, rfl, rfl⟩

/-- C5 witness: a concrete mid-fetch state is fully reset. -/
theorem c5_witness :
    send_param_requests panelMidFetch = some panelNew
    ∧ panelNew.messages = []
    ∧ panelNew.current_index = 0
    ∧ panelNew.timerActive = true
    ∧ panelNew.timerGen = panelMidFetch.timerGen + 1 := by
  have h : send_param_requests panelMidFetch = some panelNew := by decide
  have hc := c5_theorem panelMidFetch panelNew h
  exact ⟨h, hc.1, hc.2.2.1, hc.2.2.2.1, hc.2.2.2.2⟩

/-- C8 counterexample: the CAN-speed set action changes the fetch-session
cursor (it becomes the parameter's index plus one), so the cursor is not the
same after the set action as before it. -/
theorem c8_counterexample :
    (on_baudrate_set panel0).map (fun r => r.1.current_index)
      ≠ some panel0.current_index := by
  decide

/-- C8 (amended): each set action submits exactly one (index, value) write
with the no-op completion callback and leaves the ParameterStore unchanged,
but it does persist one piece of controller state: the fetch cursor is set
to the parameter's catalog index plus one (so the device's text response
correlates back to this parameter).  Shown for the cited CAN-speed action
(index 4, the selected label's code) and for the control-word action
(index 6, the packed checkbox byte). -/
theorem c8_theorem :
    (∀ (s : PanelState) (b nid : Int),
        bmapLookup s.baudrate_sel = some b →
        selectedNodeId s = some nid →
        on_baudrate_set s
          = some ({ s with current_index := 5, nodeid := nid },
                  { index := 4, value := some (PValue.pint b), dest := nid })
        ∧ ({ s with current_index := 5, nodeid := nid } : PanelState).messages
            = s.messages)
    ∧ (∀ (s : PanelState) (nid : Int),
        selectedNodeId s = some nid →
        on_checkbox_set s
          = some ({ s with current_index := 7, nodeid := nid },
                  { index := 6, value := some (PValue.pint (get_byte_from_checkboxes s)),
                    dest := nid }))
    ∧ (∀ e : Unit, empty_callback e = e) := by
  refine ⟨?_, ?_, fun e => rfl⟩
  · intro s b nid hb hnid
    unfold on_baudrate_set
    rw [show param_index.find? (fun p => p.1 == "CAN Speed")
        = some ("CAN Speed", 4, ParamKind.pint) from rfl]
    dsimp only
    rw [hb]
    unfold send_value selectedNodeId
    unfold selectedNodeId at hnid
    dsimp only
    rw [hnid]
    exact ⟨rfl, rfl⟩
  · intro s nid hnid
    unfold on_checkbox_set
    rw [show param_index.find? (fun p => p.1 == "Control Word")
        = some ("Control Word", 6, ParamKind.pint) from rfl]
    dsimp only
    unfold send_value selectedNodeId
    unfold selectedNodeId at hnid
    dsimp only
    rw [hnid]
    rfl

/-- C8 witness: the CAN-speed set action at a concrete state. -/
theorem c8_witness :
    bmapLookup ({ panel0 with baudrate_sel := "500KHz->11" } : PanelState).baudrate_sel
        = some 11
    ∧ selectedNodeId { panel0 with baudrate_sel := "500KHz->11" } = some 1
    ∧ on_baudrate_set { panel0 with baudrate_sel := "500KHz->11" }
        = some ({ panel0 with baudrate_sel := "500KHz->11", current_index := 5, nodeid := 1 },
                { index := 4, value := some (PValue.pint 11), dest := 1 }) :=
  ⟨by decide, by decide,
    (c8_theorem.1 { panel0 with baudrate_sel := "500KHz->11" } 11 1
      (by decide) (by decide)).1⟩

/-- C9: on every informational message - well-formed or malformed, before or
after fetch completion - the first two handler effects, preceding any store
insertion, are resetting the seven control-word checkboxes (control-word
byte 0, i.e. all unchecked) and clearing the three diagnostic displays; the
displays are empty in the final state of every such run, and unless the
completion signal fired (which re-applies the stored control word), the
checkboxes remain all unchecked in the final state. -/
theorem c9_theorem :
    ∀ (s : PanelState) (text : String),
      (handle_debug_log_message INFO text s).effects.take 2
          = [UiEffect.resetCheckboxes, UiEffect.clearDisplays]
      ∧ (handle_debug_log_message INFO text s).outcome.state.ctrlDisplay = []
      ∧ (handle_debug_log_message INFO text s).outcome.state.estDisplay = []
      ∧ (handle_debug_log_message INFO text s).outcome.state.userDisplay = []
      ∧ set_checkboxes_from_byte 0 = [false, false, false, false, false, false, false]
      ∧ ((handle_debug_log_message INFO text s).signaled = false →
          (handle_debug_log_message INFO text s).outcome.state.checkboxes
            = set_checkboxes_from_byte 0) := by
  intro s text
  have hh : handle_debug_log_message INFO text s = handleInfo s text := rfl
  rw [hh]
  unfold handleInfo
  cases hsplit : pySplitSpace text with
  | nil =>
    dsimp only
    have hs := reflect_and_finish_spec
      { s with checkboxes := set_checkboxes_from_byte 0,
               ctrlDisplay := [], estDisplay := [], userDisplay := [] }
      [UiEffect.resetCheckboxes, UiEffect.clearDisplays]
    refine ⟨by rw [hs.2.2.2.2.2.1]; rfl, hs.2.1, hs.2.2.1, hs.2.2.2.1, by decide, ?_⟩
    intro hsig
    rw [HandlerResult.signaled, hs.2.2.2.2.2.1] at hsig
    cases hb : (s.messages.length == param_index.length)
    · exact hs.2.2.2.2.2.2.2 hb
    · rw [hb] at hsig
      rw [if_pos rfl] at hsig
      rw [contains_signal_append] at hsig
      exact Bool.noConfusion hsig
  | cons key rest =>
    cases rest with
    | nil =>
      dsimp only
      have hs := reflect_and_finish_spec
        { s with checkboxes := set_checkboxes_from_byte 0,
                 ctrlDisplay := [], estDisplay := [], userDisplay := [] }
        [UiEffect.resetCheckboxes, UiEffect.clearDisplays]
      refine ⟨by rw [hs.2.2.2.2.2.1]; rfl, hs.2.1, hs.2.2.1, hs.2.2.2.1, by decide, ?_⟩
      intro hsig
      rw [HandlerResult.signaled, hs.2.2.2.2.2.1] at hsig
      cases hb : (s.messages.length == param_index.length)
      · exact hs.2.2.2.2.2.2.2 hb
      · rw [hb] at hsig
        rw [if_pos rfl] at hsig
        rw [contains_signal_append] at hsig
        exact Bool.noConfusion hsig
    | cons v1 vrest =>
      dsimp only
      cases hdec : decodeValue (s.current_index - 1) (joinSpace (v1 :: vrest)) with
      | none => exact ⟨rfl, rfl, rfl, rfl, by decide, fun _ => rfl⟩
      | some dv =>
        dsimp only
        have hs := store_and_finish_spec
          { s with checkboxes := set_checkboxes_from_byte 0,
                   ctrlDisplay := [], estDisplay := [], userDisplay := [] }
          [UiEffect.resetCheckboxes, UiEffect.clearDisplays]
          key (s.current_index - 1) dv
        refine ⟨by rw [hs.2.2.2.2.2.1]; rfl, hs.2.1, hs.2.2.1, hs.2.2.2.1, by decide, ?_⟩
        intro hsig
        rw [HandlerResult.signaled, hs.2.2.2.2.2.1] at hsig
        cases hb : ((insertPy s.messages key (s.current_index - 1, dv)).length
            == param_index.length)
        · exact hs.2.2.2.2.2.2 hb
        · rw [hb] at hsig
          rw [if_pos rfl] at hsig
          rw [contains_signal_append] at hsig
          exact Bool.noConfusion hsig

/-- C9 witness: a malformed one-token message still resets the checkboxes
and clears the displays. -/
theorem c9_witness :
    (handle_debug_log_message INFO "onlyonetoken" panel0).signaled = false
    ∧ (handle_debug_log_message INFO "onlyonetoken" panel0).effects.take 2
        = [UiEffect.resetCheckboxes, UiEffect.clearDisplays]
    ∧ (handle_debug_log_message INFO "onlyonetoken" panel0).outcome.state.checkboxes
        = set_checkboxes_from_byte 0
    ∧ (handle_debug_log_message INFO "onlyonetoken" panel0).outcome.state.ctrlDisplay = [] :=
  ⟨by decide, (c9_theorem panel0 "onlyonetoken").1,
    (c9_theorem panel0 "onlyonetoken").2.2.2.2.2 (by decide),
    (c9_theorem panel0 "onlyonetoken").2.1⟩

end Manta50
